import Mathlib

/-!
Verification development for the chrome-ic-inspector capture service
(`src/services/capture.ts`): a shallow embedding of the decode-and-correlate
pipeline (RequestDecoder, ResponseDecoder, CorrelationStore, certificate
traversal) and theorems settling the specification's claims about it.

Bytes are modelled as `List Nat` (each element a byte value), decoded CBOR
maps as Lean structures with `Option` fields for keys that may be absent,
JavaScript exceptions as an explicit `DecodeError`, and the asynchronous
pipeline as explicit state passing of the correlation store.  External
collaborators (the CBOR/base64 codecs, the agent library's request-id hash
and certificate container, the principal text encoding, the Candid value
decoder) are modelled as pure functions or function parameters; each such
model carries a doc comment saying so.
-/

namespace Capture

/-- A byte string: each entry is one byte value. -/
abbrev Bytes := List Nat

/-- One hexadecimal digit character for a value below 16 (lower case,
matching the `ictool` hex alphabet). -/
def hexDigit (n : Nat) : Char :=
  if n < 10 then Char.ofNat (48 + n) else Char.ofNat (87 + n)

/-- Modelled external collaborator: `toHexString` from `ictool`, rendering a
byte sequence as lower-case hex, two digits per byte. -/
def toHexString (bs : Bytes) : String :=
  String.mk (bs.foldr (fun b acc => hexDigit (b / 16 % 16) :: hexDigit (b % 16) :: acc) [])

/-- Modelled external collaborator: `TextEncoder.encode` on the ASCII label
strings the source uses (`"status"`, `"reply"`, `"reject_code"`,
`"reject_message"`, `"request_status"`); each character becomes its code
point as one byte. -/
def strToBytes (s : String) : Bytes := s.data.map Char.toNat

/-- Modelled external collaborator: `TextDecoder.decode`.  The source only
ever decodes ASCII protocol labels and human-readable reject messages; the
model maps each byte to the character of its code point (faithful on
ASCII).  `TextDecoder.decode(undefined)` returns the empty string, which
callers model by passing `[]`. -/
def utf8Decode (bs : Bytes) : String := String.mk (bs.map Char.ofNat)

/-- Modelled external collaborator: `Principal.toText` from
`@dfinity/principal` composed with `asPrincipal`.  The exact base32/CRC text
encoding is external to this repository; the model preserves determinism and
injectivity and fixes the one concrete value the specification exercises:
the empty (management-canister) principal renders as `"aaaaa-aa"`. -/
def principalToText (bs : Bytes) : String :=
  if bs = [] then "aaaaa-aa" else "principal-" ++ toHexString bs

/-- The record the source stores per call id in the module-level
`messageDetails` object: the target canister and the method name
(capture.ts lines 74-79). -/
structure MessageDetails where
  canisterId : String
  method : String
  deriving Repr, DecidableEq

/-- The CorrelationStore: the source's module-level `messageDetails` object
mapping a hex message id to its `MessageDetails`.  Modelled as an
association list where the most recent write is at the head. -/
abbrev CorrelationStore := List (String × MessageDetails)

/-- JavaScript property assignment `messageDetails[id] = rec`: an
unconditional overwrite, modelled by consing (reads take the first hit). -/
def putRecord (store : CorrelationStore) (id : String) (rec : MessageDetails) :
    CorrelationStore :=
  (id, rec) :: store

/-- JavaScript property read `messageDetails[id]`: `some` record, or `none`
when the key was never assigned (JS `undefined`). -/
def getRecord (store : CorrelationStore) (id : String) : Option MessageDetails :=
  (store.find? (fun e => e.1 = id)).map Prod.snd

/-- The CBOR-decoded `content` value of a request body: the fields of
`ReadRequest | CallRequest` that `decodeRequest` reads.  `request_type` is
kept as a raw string because the source validates it against a list;
`paths` is optional because only `read_state` requests carry it (reading it
on other shapes would be the JS `undefined`).  `canister_id`, `method_name`
and `arg` are present on call/query shapes, which are the only shapes whose
branch reads them. -/
structure RequestContent where
  request_type : String
  sender : Bytes
  ingress_expiry : Nat
  canister_id : Bytes := []
  method_name : String := ""
  arg : Bytes := []
  paths : Option (List (List Bytes)) := none
  deriving Repr, DecidableEq

/-- Modelled external collaborator: `requestIdOf` from `@dfinity/agent`, the
deterministic hash of the canonical request encoding (the message
identifier).  The concrete SHA-256 over the canonical CBOR encoding is
external to this repository; the model is a deterministic structural digest
of the same content, applied uniformly to every request kind exactly as the
source applies `requestIdOf` (capture.ts line 124). -/
def requestIdOf (r : RequestContent) : Bytes :=
  (strToBytes r.request_type ++ r.sender ++ [r.ingress_expiry] ++ r.canister_id ++
    strToBytes r.method_name ++ r.arg ++ ((r.paths.getD []).map List.flatten).flatten).map (· % 256)

/-- Result of the external Candid argument/value decoding collaborator
(`decodeCandidArgs` / `decodeCandidVals` in `services/candid`), shaped like
the source's `{ result: any; withInterface: boolean }`.  The opaque decoded
value is modelled as the raw bytes it came from. -/
structure CandidDecodeResult where
  result : Bytes
  withInterface : Bool
  deriving Repr, DecidableEq

/-- The external Candid decoding collaborator: given target canister text,
method name and raw bytes, returns a decoded value or fails
independently. -/
abbrev CandidDecoder := String → String → Bytes → Except Unit CandidDecodeResult

/-- A captured request body after the base64/CBOR stage: the decoded
top-level map, whose single expected key is `content` (absent models the
shape the source rejects at capture.ts lines 103-108). -/
structure ReqBody where
  content : Option RequestContent
  deriving Repr, DecidableEq

/-- The request half of a captured network event: the origin URL and the
post data text (already taken through the modelled btoa/base64/CBOR chain;
`none` models a missing `postData.text`). -/
structure ReqEvent where
  url : String
  postDataText : Option ReqBody
  deriving Repr, DecidableEq

/-- The decode failures of the pipeline.  Each constructor names one throw
site of `capture.ts`, using the specification's error taxonomy where it has
a name for the site; `typeError` stands for the implicit JavaScript
`TypeError` of reading a property of `undefined`; `resultDecodeError` and
`todoCallResponses` name the remaining two response-side throw sites. -/
inductive DecodeError where
  | missingBody
  | unexpectedShape
  | unknownRequestKind
  | argumentDecodeError
  | unknownCorrelation
  | unrecognizedResponseShape
  | responseRequestMismatch
  | unexpectedPathFragment
  | missingReplyOnSuccess
  | resultDecodeError
  | doneWithoutReply
  | todoCallResponses
  | typeError
  deriving Repr, DecidableEq

/-- The decoded request (`DecodedRequest` in the source): the common fields
of `AbstractDecodedRequest`, plus `args` (call/query only) and `paths`
(read_state only), mirroring the TS union of the two extensions. -/
structure DecodedRequest where
  boundary : String
  message : String
  requestId : String
  canisterId : String
  method : String
  sender : Bytes
  requestType : String
  ingressExpiry : Nat
  args : Option CandidDecodeResult := none
  paths : Option (List (List Bytes)) := none
  deriving Repr, DecidableEq

/-- Embedding of `decodeRequest` (capture.ts lines 84-172).  The module
global `messageDetails` is passed and returned explicitly; the asynchronous
`decodeCandidArgs` collaborator is the `dec` parameter, consulted only
after the store write, so a failing decode leaves the already-written
record in place exactly as in the source (lines 134-139). -/
def decodeRequest (dec : CandidDecoder) (store : CorrelationStore) (ev : ReqEvent) :
    CorrelationStore × Except DecodeError DecodedRequest :=
  match ev.postDataText with
  | none => (store, .error .missingBody)
  | some body =>
    match body.content with
    | none => (store, .error .unexpectedShape)
    | some request =>
      if request.request_type ∈ (["query", "call", "read_state"] : List String) then
        let sender := request.sender
        let requestType := request.request_type
        let ingressExpiry := request.ingress_expiry
        let requestId := toHexString (requestIdOf request)
        let boundary := ev.url
        if requestType = "query" ∨ requestType = "call" then
          let canisterId := principalToText request.canister_id
          let method := request.method_name
          let message := requestId
          let store' := putRecord store message ⟨canisterId, method⟩
          match dec canisterId method request.arg with
          | .error _ => (store', .error .argumentDecodeError)
          | .ok args =>
            (store', .ok { boundary, message, requestId, sender, requestType,
                           ingressExpiry, canisterId, method, args := some args })
        else
          match request.paths with
          | none => (store, .error .typeError)
          | some paths =>
            match paths.head? with
            | none => (store, .error .typeError)
            | some p0 =>
              let message := toHexString (p0[1]?.getD [])
              match getRecord store message with
              | none => (store, .error .unknownCorrelation)
              | some det =>
                (store, .ok { boundary, message, requestId,
                              canisterId := det.canisterId, method := det.method,
                              sender, requestType, ingressExpiry, paths := some paths })
      else (store, .error .unknownRequestKind)

/-- Modelled from the spec: the certificate's labeled proof tree
(CertificateTree, §3 and §4.4).  The concrete HashTree container lives in
the external `@dfinity/agent` library; the model has the same node shapes:
empty, fork, labeled subtree, leaf bytes, and the pruned/forgotten-subtree
marker. -/
inductive CertTree where
  | empty
  | fork (l r : CertTree)
  | labeled (label : Bytes) (child : CertTree)
  | leaf (value : Bytes)
  | pruned
  deriving Repr, DecidableEq

/-- Modelled from the spec (§4.4) and the external agent library's
`find_label`/`flatten_forks`: depth-first search for the first child
carrying `lab` among the fork-flattened children of `t`; a pruned marker or
a leaf has no children. -/
def findLabel (lab : Bytes) : CertTree → Option CertTree
  | .fork l r =>
    match findLabel lab l with
    | some c => some c
    | none => findLabel lab r
  | .labeled l c => if l = lab then some c else none
  | _ => none

/-- Modelled from the spec: CertificateResolver `lookup(tree, path)`
(§4.4, the external `Certificate.lookup`): consume the labels in order via
`findLabel`; a missing label or a pruned subtree yields `none` (Absent, a
legitimate outcome, never an error); after all labels, a leaf yields its
bytes and any other node yields `none`. -/
def lookupPath (t : CertTree) : List Bytes → Option Bytes
  | [] =>
    match t with
    | .leaf v => some v
    | _ => none
  | l :: ls =>
    match findLabel l t with
    | none => none
    | some c => lookupPath c ls

/-- The CBOR-decoded response body: the fields `decodeResponse` reads,
each optional since the source discovers the shape with `in` guards.
`certificate` holds the already-decoded proof tree (the `Certificate`
container construction and its intentionally bypassed BLS verification,
capture.ts lines 292-294, are collapsed into it); `reply_arg` models
`response.reply.arg` with `none` for a missing `reply` object. -/
structure ResponseShape where
  status : Option String := none
  certificate : Option CertTree := none
  requestId : Option Bytes := none
  reject_message : Option String := none
  reject_code : Option Nat := none
  reply_arg : Option Bytes := none
  deriving Repr, DecidableEq

/-- The response half of a captured network event: the body delivered by
chrome's asynchronous `getContent`, taken through the modelled base64/CBOR
chain.  `none` models an empty or absent content string (the source's
`!content` test). -/
structure RespEvent where
  content : Option ResponseShape
  deriving Repr, DecidableEq

/-- The decoded response (`DecodedResponse` in the source): a bare status
(the `{ status }` returns), a replied status with its decoded value, a
query rejection copying the raw optional `reject_message`/`reject_code`
fields, or a read_state rejection with decoded message text and first code
byte (`none` models the JS `undefined` of indexing an empty array). -/
inductive DecodedResponse where
  | bare (status : String)
  | replied (status : String) (reply : CandidDecodeResult)
  | rejectedQuery (status : String) (message : Option String) (code : Option Nat)
  | rejectedReadState (status : String) (message : String) (code : Option Nat)
  deriving Repr, DecidableEq

/-- Embedding of the `switch (status)` of the certificate branch
(capture.ts lines 309-344), dispatching on the certificate-derived status
string over the flattened request paths `flat`.  The rejected case mirrors
the source's unchecked lookups: `new Uint8Array(undefined)` is empty and
`TextDecoder.decode(undefined)` is `""`, modelled by `Option.getD []`.  A
status string outside the enum falls out of the switch and the source
returns `undefined`, modelled as `.ok none`. -/
def handleReadStateStatus (dec : CandidDecoder) (cert : CertTree)
    (flat : List Bytes) (det : MessageDetails) (status : String) :
    Except DecodeError (Option DecodedResponse) :=
  if status = "replied" then
    match lookupPath cert (flat ++ [strToBytes "reply"]) with
    | none => .error .missingReplyOnSuccess
    | some buffer =>
      match dec det.canisterId det.method buffer with
      | .error _ => .error .resultDecodeError
      | .ok reply => .ok (some (.replied status reply))
  else if status = "received" ∨ status = "unknown" ∨ status = "processing" then
    .ok (some (.bare status))
  else if status = "rejected" then
    let code := ((lookupPath cert (flat ++ [strToBytes "reject_code"])).getD []).head?
    let message := utf8Decode ((lookupPath cert (flat ++ [strToBytes "reject_message"])).getD [])
    .ok (some (.rejectedReadState status message code))
  else if status = "done" then .error .doneWithoutReply
  else .ok none

/-- Embedding of `decodeResponse` (capture.ts lines 206-348).  The module
global `messageDetails` is the `store` parameter; the external
`decodeCandidVals` collaborator is `dec`.  An empty body returns the bare
`Unknown` status before the request is even examined; otherwise the shape
is validated to carry one of the three recognized keys, then dispatched on
`status` first, `certificate` second, leaving the `requestId` shape at the
source's `TODO` throw. -/
def decodeResponse (dec : CandidDecoder) (store : CorrelationStore)
    (ev : RespEvent) (request : DecodedRequest) :
    Except DecodeError (Option DecodedResponse) :=
  match ev.content with
  | none => .ok (some (.bare "unknown"))
  | some response =>
    if response.status = none ∧ response.certificate = none ∧ response.requestId = none then
      .error .unrecognizedResponseShape
    else
      match response.status with
      | some status =>
        if request.requestType ≠ "query" then .error .responseRequestMismatch
        else if status = "replied" then
          match response.reply_arg with
          | none => .error .typeError
          | some arg =>
            match dec request.canisterId request.method arg with
            | .error _ => .error .resultDecodeError
            | .ok reply => .ok (some (.replied status reply))
        else .ok (some (.rejectedQuery status response.reject_message response.reject_code))
      | none =>
        match response.certificate with
        | some cert =>
          if request.requestType ≠ "read_state" then .error .responseRequestMismatch
          else
            match request.paths with
            | none => .error .typeError
            | some paths =>
              match paths.head? with
              | none => .error .typeError
              | some p0 =>
                if utf8Decode (p0.headD []) ≠ "request_status" then
                  .error .unexpectedPathFragment
                else
                  match getRecord store request.message with
                  | none => .error .unknownCorrelation
                  | some det =>
                    let flat := paths.flatten
                    let status :=
                      match lookupPath cert (flat ++ [strToBytes "status"]) with
                      | some bs => utf8Decode bs
                      | none => "unknown"
                    handleReadStateStatus dec cert flat det status
        | none => .error .todoCallResponses

/-- A Candid decoding collaborator that always fails, exercising the
independent-failure paths of the pipeline. -/
def decFail : CandidDecoder := fun _ _ _ => .error ()

/-- A Candid decoding collaborator that succeeds, echoing the raw bytes as
the decoded value. -/
def decOk : CandidDecoder := fun _ _ bs => .ok ⟨bs, true⟩

/-- A concrete Call request content: the management canister (empty
principal, text `"aaaaa-aa"`), method `"greet"`, with a small argument
blob. -/
def callContent : RequestContent :=
  { request_type := "call", sender := [4], ingress_expiry := 99,
    canister_id := [], method_name := "greet", arg := [68, 73, 68, 76] }

/-- The captured network event carrying `callContent`. -/
def callEv : ReqEvent :=
  { url := "https://ic0.app/api/v2/canister/aaaaa-aa/call",
    postDataText := some { content := some callContent } }

/-- A concrete ReadState request content polling `callContent`: its first
path is `["request_status", requestIdOf callContent]`. -/
def rsContentGood : RequestContent :=
  { request_type := "read_state", sender := [4], ingress_expiry := 100,
    paths := some [[strToBytes "request_status", requestIdOf callContent]] }

/-- The captured network event carrying `rsContentGood`. -/
def rsEvGood : ReqEvent :=
  { url := "https://ic0.app/api/v2/canister/aaaaa-aa/read_state",
    postDataText := some { content := some rsContentGood } }

/-- The correlation store after decoding `callEv` from an empty store. -/
def callStore : CorrelationStore :=
  [(toHexString (requestIdOf callContent), ⟨"aaaaa-aa", "greet"⟩)]

/-- The decoded request produced by `decodeRequest decOk [] callEv`. -/
def callDecoded : DecodedRequest :=
  { boundary := "https://ic0.app/api/v2/canister/aaaaa-aa/call",
    message := toHexString (requestIdOf callContent),
    requestId := toHexString (requestIdOf callContent),
    canisterId := "aaaaa-aa", method := "greet", sender := [4],
    requestType := "call", ingressExpiry := 99,
    args := some ⟨[68, 73, 68, 76], true⟩ }

/-- A concrete ReadState lookup path `["request_status", 0xaa]`. -/
def rsPath : List Bytes := [strToBytes "request_status", [170]]

/-- A concrete decoded ReadState request whose single path is `rsPath` and
whose originating-call message id is the hex string `"aa"`. -/
def rsReq : DecodedRequest :=
  { boundary := "https://ic0.app/api/v2/canister/aaaaa-aa/read_state",
    message := "aa", requestId := "bb", canisterId := "aaaaa-aa", method := "greet",
    sender := [4], requestType := "read_state", ingressExpiry := 0,
    paths := some [rsPath] }

/-- A correlation store holding the record for message id `"aa"`. -/
def storeAA : CorrelationStore := [("aa", ⟨"aaaaa-aa", "greet"⟩)]

/-- A certificate tree whose status leaf at `rsPath ++ ["status"]` reads
`"rejected"` but which carries no `reject_code` or `reject_message`
leaf. -/
def certRejNoDetail : CertTree :=
  .labeled (strToBytes "request_status")
    (.labeled [170] (.labeled (strToBytes "status") (.leaf (strToBytes "rejected"))))

/-- A certificate tree with status `"rejected"`, reject code byte `3` and
reject message `"canister trapped"` under `rsPath` (the specification's §8
rejection example). -/
def certRejFull : CertTree :=
  .labeled (strToBytes "request_status")
    (.labeled [170] (.fork
      (.labeled (strToBytes "status") (.leaf (strToBytes "rejected")))
      (.fork (.labeled (strToBytes "reject_code") (.leaf [3]))
             (.labeled (strToBytes "reject_message") (.leaf (strToBytes "canister trapped"))))))

/-- A certificate tree whose status leaf under `rsPath` reads `"done"`. -/
def certDone : CertTree :=
  .labeled (strToBytes "request_status")
    (.labeled [170] (.labeled (strToBytes "status") (.leaf (strToBytes "done"))))

/-- A concrete decoded Query request for `"aaaaa-aa"` / `"greet"`. -/
def qReq : DecodedRequest :=
  { boundary := "https://ic0.app/api/v2/canister/aaaaa-aa/query",
    message := "m", requestId := "bb", canisterId := "aaaaa-aa", method := "greet",
    sender := [4], requestType := "query", ingressExpiry := 0 }

/-- Writing a record and reading the same key back returns exactly that
record (the JS object overwrite/read semantics of `messageDetails`). -/
theorem getRecord_putRecord (store : CorrelationStore) (id : String) (rec : MessageDetails) :
    getRecord (putRecord store id rec) id = some rec := by
  simp [getRecord, putRecord, List.find?]

/-- Whenever `decodeRequest` succeeds, the `requestId` of the result is the
hex rendering of `requestIdOf` applied to the decoded content, computed by
the same expression on every branch of the kind dispatch. -/
theorem decodeRequest_ok_requestId (dec : CandidDecoder) (store : CorrelationStore)
    (ev : ReqEvent) (body : ReqBody) (c : RequestContent)
    (store' : CorrelationStore) (r : DecodedRequest)
    (hb : ev.postDataText = some body) (hc : body.content = some c)
    (h : decodeRequest dec store ev = (store', .ok r)) :
    r.requestId = toHexString (requestIdOf c) := by
  simp only [decodeRequest, hb, hc] at h
  split at h
  · split at h
    · split at h
      · simp at h
      · obtain ⟨-, h2⟩ := Prod.mk.injEq .. ▸ h
        cases h2
        rfl
    · split at h
      · simp at h
      · split at h
        · simp at h
        · split at h
          · simp at h
          · obtain ⟨-, h2⟩ := Prod.mk.injEq .. ▸ h
            cases h2
            rfl
  · simp at h

/-- Claim C1, counterexample: the claim says a Rejected certificate status
with an absent `reject_code` or `reject_message` leaf must fail with
MissingRejectionDetail, but on a certificate that carries neither leaf the
decoder succeeds, returning Rejected with an undefined code and an empty
message — it never validates presence. -/
theorem C1_missing_rejection_detail_counterexample :
    lookupPath certRejNoDetail (rsPath ++ [strToBytes "reject_code"]) = none
    ∧ lookupPath certRejNoDetail (rsPath ++ [strToBytes "reject_message"]) = none
    ∧ decodeResponse decFail storeAA
        { content := some { certificate := some certRejNoDetail } } rsReq
      = .ok (some (.rejectedReadState "rejected" "" none)) :=
  ⟨rfl, rfl, rfl⟩

/-- Claim C1, amended: for every ReadState response whose
certificate-derived terminal status is Rejected, the decoder performs no
presence validation of the rejection leaves: it returns Rejected with the
code taken as the first byte of the `reject_code` leaf when present (and
the JS `undefined`, modelled `none`, otherwise) and the message taken as
the UTF-8 decoding of the `reject_message` leaf when present (and the
empty string otherwise); it never fails with MissingRejectionDetail. -/
theorem C1_rejected_decodes_without_presence_check (dec : CandidDecoder)
    (store : CorrelationStore) (ev : RespEvent)
    (response : ResponseShape) (cert : CertTree) (req : DecodedRequest)
    (paths : List (List Bytes)) (p0 : List Bytes) (det : MessageDetails) (bs : Bytes)
    (he : ev.content = some response) (hs : response.status = none)
    (hcert : response.certificate = some cert)
    (hq : req.requestType = "read_state") (hp : req.paths = some paths)
    (h0 : paths.head? = some p0) (hpre : utf8Decode (p0.head?.getD []) = "request_status")
    (hdet : getRecord store req.message = some det)
    (hst : lookupPath cert (paths.flatten ++ [strToBytes "status"]) = some bs)
    (hbs : utf8Decode bs = "rejected") :
    decodeResponse dec store ev req = .ok (some (.rejectedReadState "rejected"
      (utf8Decode ((lookupPath cert (paths.flatten ++ [strToBytes "reject_message"])).getD []))
      (((lookupPath cert (paths.flatten ++ [strToBytes "reject_code"])).getD []).head?))) := by
  simp +decide [decodeResponse, he, hs, hcert, hq, hp, h0, hpre, hdet, hst, hbs,
        handleReadStateStatus]

/-- Witness for C1's amended theorem: on the certificate carrying both
rejection leaves, decoding yields Rejected with code byte 3 and message
`"canister trapped"` (the specification's §8 example values). -/
theorem C1_rejected_decodes_without_presence_check_witness :
    decodeResponse decFail storeAA
        { content := some { certificate := some certRejFull } } rsReq
      = .ok (some (.rejectedReadState "rejected" "canister trapped" (some 3))) :=
  (C1_rejected_decodes_without_presence_check decFail storeAA _
    { certificate := some certRejFull } certRejFull rsReq
    [rsPath] rsPath ⟨"aaaaa-aa", "greet"⟩ (strToBytes "rejected")
    rfl rfl rfl rfl rfl rfl rfl rfl rfl rfl).trans rfl

/-- Claim C2: decoding a captured ReadState request whose embedded
originating call id (the first path's second label, rendered in hex) was
never stored by a prior Call/Query decode fails with UnknownCorrelation
instead of returning a Request, and leaves the store unchanged. -/
theorem C2_readstate_unknown_correlation (dec : CandidDecoder)
    (store : CorrelationStore) (ev : ReqEvent)
    (body : ReqBody) (c : RequestContent) (paths : List (List Bytes)) (p0 : List Bytes)
    (hb : ev.postDataText = some body) (hc : body.content = some c)
    (hk : c.request_type = "read_state") (hp : c.paths = some paths)
    (h0 : paths.head? = some p0)
    (hget : getRecord store (toHexString (p0[1]?.getD [])) = none) :
    decodeRequest dec store ev = (store, .error .unknownCorrelation) := by
  simp [decodeRequest, hb, hc, hk, hp, h0, hget]

/-- Witness for C2: decoding the ReadState event against an empty store
fails with UnknownCorrelation. -/
theorem C2_readstate_unknown_correlation_witness :
    decodeRequest decFail [] rsEvGood = ([], .error .unknownCorrelation) :=
  C2_readstate_unknown_correlation decFail [] rsEvGood _ rsContentGood
    [[strToBytes "request_status", requestIdOf callContent]]
    [strToBytes "request_status", requestIdOf callContent] rfl rfl rfl rfl rfl rfl

/-- Claim C3: for every Call or Query request the correlation record
(target identity and method, keyed by the message id) is written to the
store independently of the argument-decoding collaborator: the resulting
store always equals the old store with the record written, the record is
readable there, and when argument decoding fails the decode surfaces
ArgumentDecodeError while the record stays written — the failure does not
roll it back. -/
theorem C3_correlation_written_despite_arg_failure (dec : CandidDecoder)
    (store : CorrelationStore) (ev : ReqEvent)
    (body : ReqBody) (c : RequestContent)
    (hb : ev.postDataText = some body) (hc : body.content = some c)
    (hk : c.request_type = "call" ∨ c.request_type = "query") :
    (decodeRequest dec store ev).1
      = putRecord store (toHexString (requestIdOf c))
          ⟨principalToText c.canister_id, c.method_name⟩
    ∧ getRecord (decodeRequest dec store ev).1 (toHexString (requestIdOf c))
      = some ⟨principalToText c.canister_id, c.method_name⟩
    ∧ (∀ e, dec (principalToText c.canister_id) c.method_name c.arg = .error e →
        (decodeRequest dec store ev).2 = .error .argumentDecodeError) := by
  refine ⟨?_, ?_, fun e he => ?_⟩ <;>
  rcases hk with hk | hk <;>
  cases hdec : dec (principalToText c.canister_id) c.method_name c.arg <;>
  simp_all [decodeRequest, getRecord_putRecord]

/-- Witness for C3: decoding the Call event with a failing argument
decoder writes the record, keeps it readable, and reports
ArgumentDecodeError. -/
theorem C3_correlation_written_despite_arg_failure_witness :
    (decodeRequest decFail [] callEv).1
      = putRecord [] (toHexString (requestIdOf callContent)) ⟨"aaaaa-aa", "greet"⟩
    ∧ getRecord (decodeRequest decFail [] callEv).1 (toHexString (requestIdOf callContent))
      = some ⟨"aaaaa-aa", "greet"⟩
    ∧ (decodeRequest decFail [] callEv).2 = .error .argumentDecodeError := by
  have h := C3_correlation_written_despite_arg_failure decFail [] callEv _ callContent
    rfl rfl (Or.inl rfl)
  exact ⟨h.1.trans rfl, h.2.1.trans rfl, h.2.2 () rfl⟩

/-- Claim C4: a put followed by a get of the same id returns exactly the
stored record; and decoding a Call for a target and method followed by
decoding a ReadState whose first path's second label is that Call's
message identifier retrieves exactly that target and method on the decoded
ReadState request. -/
theorem C4_correlation_roundtrip (id : String) (rec : MessageDetails)
    (store : CorrelationStore)
    (decA decB : CandidDecoder) (store0 : CorrelationStore)
    (evC evR : ReqEvent) (bodyC bodyR : ReqBody) (c r : RequestContent)
    (paths : List (List Bytes)) (p0 : List Bytes)
    (hbC : evC.postDataText = some bodyC) (hcC : bodyC.content = some c)
    (hkC : c.request_type = "call")
    (hbR : evR.postDataText = some bodyR) (hcR : bodyR.content = some r)
    (hkR : r.request_type = "read_state") (hpR : r.paths = some paths)
    (h0 : paths.head? = some p0) (h1 : p0[1]? = some (requestIdOf c)) :
    getRecord (putRecord store id rec) id = some rec
    ∧ ((decodeRequest decB (decodeRequest decA store0 evC).1 evR).2.map
          DecodedRequest.canisterId = .ok (principalToText c.canister_id)
      ∧ (decodeRequest decB (decodeRequest decA store0 evC).1 evR).2.map
          DecodedRequest.method = .ok c.method_name) := by
  refine ⟨getRecord_putRecord store id rec, ?_, ?_⟩ <;>
  · cases hdec : decA (principalToText c.canister_id) c.method_name c.arg <;>
    simp [decodeRequest, Except.map, hbC, hcC, hkC, hbR, hcR, hkR, hpR, h0, h1, hdec,
          getRecord_putRecord]

/-- Witness for C4: the round trip at concrete values, and the §8 example:
the Call for `"aaaaa-aa"` / `"greet"` followed by the ReadState polling its
message id retrieves exactly that target and method. -/
theorem C4_correlation_roundtrip_witness :
    getRecord (putRecord [] "aa" ⟨"aaaaa-aa", "greet"⟩) "aa" = some ⟨"aaaaa-aa", "greet"⟩
    ∧ ((decodeRequest decOk (decodeRequest decOk [] callEv).1 rsEvGood).2.map
          DecodedRequest.canisterId = .ok "aaaaa-aa"
      ∧ (decodeRequest decOk (decodeRequest decOk [] callEv).1 rsEvGood).2.map
          DecodedRequest.method = .ok "greet") := by
  have h := C4_correlation_roundtrip "aa" ⟨"aaaaa-aa", "greet"⟩ [] decOk decOk []
    callEv rsEvGood _ _ callContent rsContentGood
    [[strToBytes "request_status", requestIdOf callContent]]
    [strToBytes "request_status", requestIdOf callContent]
    rfl rfl rfl rfl rfl rfl rfl rfl rfl
  exact ⟨h.1, h.2.1.trans rfl, h.2.2.trans rfl⟩

/-- Claim C5: a captured event with an empty response body decodes to the
bare Unknown status, not an error, for every paired request — in
particular for both the Query and the ReadState variants. -/
theorem C5_empty_body_unknown (dec : CandidDecoder) (store : CorrelationStore)
    (request : DecodedRequest) :
    decodeResponse dec store ⟨none⟩ request = .ok (some (.bare "unknown")) := rfl

/-- Claim C6: for a ReadState response carrying a certificate and a request
with the single lookup path `p`, the decode outcome is the status dispatch
applied to the leaf found at `p ++ ["status"]` in the certificate tree, and
when that lookup yields no leaf bytes the result is the bare Unknown
status. -/
theorem C6_status_from_certificate_lookup (dec : CandidDecoder)
    (store : CorrelationStore) (ev : RespEvent)
    (response : ResponseShape) (cert : CertTree) (req : DecodedRequest)
    (p : List Bytes) (det : MessageDetails)
    (he : ev.content = some response) (hs : response.status = none)
    (hcert : response.certificate = some cert)
    (hq : req.requestType = "read_state") (hp : req.paths = some [p])
    (hpre : utf8Decode (p.head?.getD []) = "request_status")
    (hdet : getRecord store req.message = some det) :
    decodeResponse dec store ev req
      = handleReadStateStatus dec cert p det
          (match lookupPath cert (p ++ [strToBytes "status"]) with
           | some bs => utf8Decode bs
           | none => "unknown")
    ∧ (lookupPath cert (p ++ [strToBytes "status"]) = none →
        decodeResponse dec store ev req = .ok (some (.bare "unknown"))) := by
  constructor
  · simp [decodeResponse, he, hs, hcert, hq, hp, hpre, hdet]
  · intro hnone
    simp +decide [decodeResponse, he, hs, hcert, hq, hp, hpre, hdet, hnone,
      handleReadStateStatus]

/-- Witness for C6: on the empty certificate tree the status lookup is
absent and the decode returns the bare Unknown status. -/
theorem C6_status_from_certificate_lookup_witness :
    decodeResponse decFail storeAA
        { content := some { certificate := some CertTree.empty } } rsReq
      = .ok (some (.bare "unknown")) :=
  (C6_status_from_certificate_lookup decFail storeAA _
    { certificate := some CertTree.empty } CertTree.empty rsReq
    rsPath ⟨"aaaaa-aa", "greet"⟩ rfl rfl rfl rfl rfl rfl rfl).2 rfl

/-- Claim C7: a ReadState response whose certificate-derived terminal
status is Done fails fatally with DoneWithoutReply rather than returning a
Response.  The decoder keeps no polling-sequence state, so the error is
raised on every Done observation — in particular on any Done without a
prior Replied observation, as the claim states. -/
theorem C7_done_without_reply_fatal (dec : CandidDecoder)
    (store : CorrelationStore) (ev : RespEvent)
    (response : ResponseShape) (cert : CertTree) (req : DecodedRequest)
    (paths : List (List Bytes)) (p0 : List Bytes) (det : MessageDetails) (bs : Bytes)
    (he : ev.content = some response) (hs : response.status = none)
    (hcert : response.certificate = some cert)
    (hq : req.requestType = "read_state") (hp : req.paths = some paths)
    (h0 : paths.head? = some p0) (hpre : utf8Decode (p0.head?.getD []) = "request_status")
    (hdet : getRecord store req.message = some det)
    (hst : lookupPath cert (paths.flatten ++ [strToBytes "status"]) = some bs)
    (hbs : utf8Decode bs = "done") :
    decodeResponse dec store ev req = .error .doneWithoutReply := by
  simp +decide [decodeResponse, he, hs, hcert, hq, hp, h0, hpre, hdet, hst, hbs,
        handleReadStateStatus]

/-- Witness for C7: on the certificate whose status leaf reads `"done"`
the decode fails with DoneWithoutReply. -/
theorem C7_done_without_reply_fatal_witness :
    decodeResponse decFail storeAA { content := some { certificate := some certDone } } rsReq
      = .error .doneWithoutReply :=
  C7_done_without_reply_fatal decFail storeAA _ { certificate := some certDone }
    certDone rsReq [rsPath] rsPath ⟨"aaaaa-aa", "greet"⟩ (strToBytes "done")
    rfl rfl rfl rfl rfl rfl rfl rfl rfl rfl

/-- Claim C8, counterexample: the claim requires every response shape
carrying a certificate field to fail with ResponseRequestMismatch unless
the request is the ReadState variant, but the decoder dispatches on the
status field first: a shape carrying both a status and a certificate,
paired with a Query request, decodes successfully instead of failing. -/
theorem C8_mismatch_counterexample :
    ({ status := some "rejected", certificate := some .empty : ResponseShape }).certificate.isSome
      = true
    ∧ qReq.requestType ≠ "read_state"
    ∧ decodeResponse decFail []
        { content := some { status := some "rejected", certificate := some .empty } } qReq
      = .ok (some (.rejectedQuery "rejected" none none)) :=
  ⟨rfl, by decide, rfl⟩

/-- Claim C8, amended: a decoded response shape carrying a direct status
field fails with ResponseRequestMismatch unless the paired request is the
Query variant; and a shape carrying a certificate field and no status
field fails with ResponseRequestMismatch unless the paired request is the
ReadState variant. -/
theorem C8_shape_request_mismatch (dec : CandidDecoder) (store : CorrelationStore)
    (ev : RespEvent) (response : ResponseShape) (req : DecodedRequest)
    (he : ev.content = some response) :
    (∀ s, response.status = some s → req.requestType ≠ "query" →
      decodeResponse dec store ev req = .error .responseRequestMismatch)
    ∧ (response.status = none → ∀ cert, response.certificate = some cert →
        req.requestType ≠ "read_state" →
        decodeResponse dec store ev req = .error .responseRequestMismatch) := by
  constructor
  · intro s hs hq
    simp [decodeResponse, he, hs, hq]
  · intro hs cert hcert hq
    simp [decodeResponse, he, hs, hcert, hq]

/-- Witness for C8's amended theorem: a certificate-only response paired
with a Query request fails with ResponseRequestMismatch. -/
theorem C8_shape_request_mismatch_witness :
    decodeResponse decFail [] { content := some { certificate := some CertTree.empty } } qReq
      = .error .responseRequestMismatch :=
  (C8_shape_request_mismatch decFail [] _ { certificate := some CertTree.empty } qReq rfl).2
    rfl CertTree.empty rfl (by decide)

/-- Claim C9: two successful decodes of the same raw request bytes — even
against different stores and different argument decoders — yield the same
message identifier, and that identifier is the hex rendering of the
deterministic hash `requestIdOf` of the decoded content, computed by the
same expression for all three request kinds. -/
theorem C9_request_id_deterministic (decA decB : CandidDecoder)
    (sA sB sA' sB' : CorrelationStore)
    (ev : ReqEvent) (body : ReqBody) (c : RequestContent) (r1 r2 : DecodedRequest)
    (hb : ev.postDataText = some body) (hc : body.content = some c)
    (h1 : decodeRequest decA sA ev = (sA', .ok r1))
    (h2 : decodeRequest decB sB ev = (sB', .ok r2)) :
    r1.requestId = r2.requestId ∧ r1.requestId = toHexString (requestIdOf c) := by
  have e1 := decodeRequest_ok_requestId decA sA ev body c sA' r1 hb hc h1
  have e2 := decodeRequest_ok_requestId decB sB ev body c sB' r2 hb hc h2
  exact ⟨e1.trans e2.symm, e1⟩

/-- Witness for C9: decoding the Call event from the empty store and again
from the already-populated store produces the same request id, equal to the
hash of the content. -/
theorem C9_request_id_deterministic_witness :
    callDecoded.requestId = callDecoded.requestId
    ∧ callDecoded.requestId = toHexString (requestIdOf callContent) :=
  C9_request_id_deterministic decOk decOk [] callStore callStore
    (putRecord callStore (toHexString (requestIdOf callContent)) ⟨"aaaaa-aa", "greet"⟩)
    callEv _ callContent callDecoded callDecoded rfl rfl rfl rfl

/-- Claim C10: a Query response whose top-level status is any value other
than `"replied"` — not only `"rejected"` — decodes to the Rejected shape,
copying the raw `reject_message` and `reject_code` fields without any
presence validation. -/
theorem C10_query_nonreplied_returns_rejected_shape (dec : CandidDecoder)
    (store : CorrelationStore) (ev : RespEvent)
    (response : ResponseShape) (req : DecodedRequest) (s : String)
    (he : ev.content = some response) (hs : response.status = some s)
    (hne : s ≠ "replied") (hq : req.requestType = "query") :
    decodeResponse dec store ev req
      = .ok (some (.rejectedQuery s response.reject_message response.reject_code)) := by
  simp [decodeResponse, he, hs, hne, hq]

/-- Witness for C10: a status of `"done"` with absent rejection fields
still decodes to the Rejected shape with both fields undefined. -/
theorem C10_query_nonreplied_returns_rejected_shape_witness :
    decodeResponse decFail [] { content := some { status := some "done" } } qReq
      = .ok (some (.rejectedQuery "done" none none)) :=
  C10_query_nonreplied_returns_rejected_shape decFail [] _ { status := some "done" }
    qReq "done" rfl rfl (by decide) rfl

end Capture
